import Mathlib

/-!
Shallow embedding of the frame-distribution broker of this repository:
the GraphQL gateway's ingest client (`src/gateway/src/ar/jetson_client.rs`,
`src/gateway/src/schema.rs`, `src/gateway/src/main.rs`) and the Jetson-side
AR bridge server (`src/p1/src/ar/bridge.rs`, `src/p1/src/ar/protocol.rs`).

JSON text on the wire is modelled by the inductive `Json` below; a message
whose text is not valid JSON corresponds to no `Json` value at all and a
fortiori fails every structural decoder.  JSON numbers are modelled as
integers (all numeric fields exercised by the protocol are u16/u32/u64;
f32 payload fields are mapped to `Float` via `Float.ofInt` on the
integer-valued subset).  Decoders follow serde_json's derived behaviour:
structs decode from objects by field name, extra fields are ignored,
`Option` fields and `#[serde(default)]` fields default when missing, enums
are externally tagged (a one-entry object; unit variants also decode from a
plain string or from a one-entry object with a null value).
-/

/-- JSON values (serde_json's data model, numbers restricted to integers). -/
inductive Json where
  | null : Json
  | bool (b : Bool) : Json
  | num (n : Int) : Json
  | str (s : String) : Json
  | arr (xs : List Json) : Json
  | obj (fields : List (String × Json)) : Json
deriving Repr

/-- First binding of a field name in a JSON object, serde's view of a
well-formed object (serde_json rejects duplicate fields; we read the first). -/
def getField (fields : List (String × Json)) (k : String) : Option Json :=
  fields.lookup k

/-- Decode an unsigned integer bounded by `bound` (serde rejects negatives
and out-of-range values for uN). -/
def decodeUIntLt (bound : Nat) : Json → Option Nat
  | .num n => if 0 ≤ n ∧ n < (bound : Int) then some n.toNat else none
  | _ => none

def decodeU64 : Json → Option Nat := decodeUIntLt (2 ^ 64)
def decodeU32 : Json → Option Nat := decodeUIntLt (2 ^ 32)
def decodeU16 : Json → Option Nat := decodeUIntLt (2 ^ 16)

def decodeString : Json → Option String
  | .str s => some s
  | _ => none

def decodeBool : Json → Option Bool
  | .bool b => some b
  | _ => none

/-- A required struct field: missing or ill-typed fails the whole decode. -/
def reqField {α : Type} (dec : Json → Option α) (fields : List (String × Json))
    (k : String) : Option α :=
  match getField fields k with
  | none => none
  | some v => dec v

/-- An `Option<T>` struct field: missing or `null` is `none`; present and
ill-typed fails the decode (serde's implicit-`None` handling of `Option`). -/
def optField {α : Type} (dec : Json → Option α) (fields : List (String × Json))
    (k : String) : Option (Option α) :=
  match getField fields k with
  | none => some none
  | some .null => some none
  | some v => (dec v).map some

/-- A `#[serde(default)]` field of a non-`Option` type: missing yields the
default, present must decode. -/
def dfltField {α : Type} (dec : Json → Option α) (dflt : α)
    (fields : List (String × Json)) (k : String) : Option α :=
  match getField fields k with
  | none => some dflt
  | some v => dec v

def decodeStringList : Json → Option (List String)
  | .arr xs => xs.mapM decodeString
  | _ => none

namespace Gateway

/-- Type `ARFrame` of `src/gateway/src/ar/jetson_client.rs`: timestamp and
frame_id are required; every other field is `#[serde(default)]`. -/
structure ARFrame where
  timestamp : Nat
  frame_id : Nat
  protocol_version : Option Nat
  objects : List String
  hands : Option String
  audio_context : Option String
  device_states : Option String
deriving Repr, DecidableEq

/-- serde-derived `Deserialize` for the gateway's `ARFrame`. -/
def decodeARFrame : Json → Option ARFrame
  | .obj fields => do
      let timestamp ← reqField decodeU64 fields "timestamp"
      let frame_id ← reqField decodeU32 fields "frame_id"
      let protocol_version ← optField decodeU16 fields "protocol_version"
      let objects ← dfltField decodeStringList [] fields "objects"
      let hands ← optField decodeString fields "hands"
      let audio_context ← optField decodeString fields "audio_context"
      let device_states ← optField decodeString fields "device_states"
      pure ⟨timestamp, frame_id, protocol_version, objects, hands,
            audio_context, device_states⟩
  | _ => none

/-- Type `ServerMessage` of `src/gateway/src/ar/jetson_client.rs` (the gateway's
view of Jetson envelopes: `Error` here carries only `message`). -/
inductive ServerMessage where
  | Connected (server_version : String) (session_id : String) : ServerMessage
  | Frame (frame : ARFrame) : ServerMessage
  | Error (message : String) : ServerMessage
deriving Repr, DecidableEq

def decodeConnectedPayload : Json → Option ServerMessage
  | .obj fields => do
      let sv ← reqField decodeString fields "server_version"
      let sid ← reqField decodeString fields "session_id"
      pure (.Connected sv sid)
  | _ => none

def decodeErrorPayload : Json → Option ServerMessage
  | .obj fields => do
      let m ← reqField decodeString fields "message"
      pure (.Error m)
  | _ => none

/-- serde-derived `Deserialize` for the gateway's externally tagged
`ServerMessage` enum: a one-entry object whose key names the variant. -/
def decodeServerMessage : Json → Option ServerMessage
  | .obj [(tag, v)] =>
      if tag = "Connected" then decodeConnectedPayload v
      else if tag = "Frame" then (decodeARFrame v).map ServerMessage.Frame
      else if tag = "Error" then decodeErrorPayload v
      else none
  | _ => none

/-- What `connect_and_stream` does with one decoded text message. -/
inductive IngestAction where
  | logConnected (server_version : String) (session_id : String) : IngestAction
  | publishFrame (frame : ARFrame) : IngestAction
  | logErrorMsg (message : String) : IngestAction
  | logParseFailure : IngestAction
deriving Repr, DecidableEq

/-- The `match server_msg` arms inside `connect_and_stream`: a `Connected`
or `Error` envelope is logged, a `Frame` envelope is broadcast. -/
def envelopeAction : ServerMessage → IngestAction
  | .Connected sv sid => .logConnected sv sid
  | .Frame f => .publishFrame f
  | .Error m => .logErrorMsg m

/-- The if/else-if/else chain of `connect_and_stream` on a text message:
try the tagged `ServerMessage` envelope first, fall back to a bare
`ARFrame`, and otherwise log the parse failure and discard the message. -/
def handleText (j : Json) : IngestAction :=
  match decodeServerMessage j with
  | some m => envelopeAction m
  | none =>
      match decodeARFrame j with
      | some f => .publishFrame f
      | none => .logParseFailure

end Gateway

/-- Type `ARScene` of `src/gateway/src/schema.rs`: the value carried on the
broadcast channel and yielded by the GraphQL `arStream` subscription. -/
structure ARScene where
  timestamp : Nat
  frame_id : Nat
deriving Repr, DecidableEq

namespace Gateway

/-- The `ARScene` built by `JetsonARClient::broadcast_frame` from a decoded
`ARFrame` (only `timestamp` and `frame_id` are carried over). -/
def sceneOfFrame (f : ARFrame) : ARScene :=
  { timestamp := f.timestamp, frame_id := f.frame_id }

/-- State of the tokio `broadcast` channel created in
`src/gateway/src/main.rs` (`broadcast::channel::<ARScene>(100)`), as seen by
a sender: the number of live receivers and the scenes accepted so far. -/
structure Bus where
  receiverCount : Nat
  sent : List ARScene
deriving Repr, DecidableEq

/-- Model of `tokio::sync::broadcast::Sender::send`: fails exactly when there is no
live receiver, otherwise enqueues the value for every receiver. -/
def Bus.send (b : Bus) (s : ARScene) : Except Unit Bus :=
  if b.receiverCount = 0 then .error ()
  else .ok { b with sent := b.sent ++ [s] }

/-- Model of `JetsonARClient::broadcast_frame`: build the scene, send it, and swallow
a send error with a warning (the `Bool` records whether the no-subscriber
warning was logged).  Total: no error escapes to the caller. -/
def broadcastFrame (b : Bus) (f : ARFrame) : Bus × Bool :=
  match b.send (sceneOfFrame f) with
  | .ok b2 => (b2, false)
  | .error _ => (b, true)

/-- One event observed by `connect_and_stream`'s read loop on the upstream
WebSocket. -/
inductive WsEvent where
  | text (j : Json) : WsEvent
  | close : WsEvent
  | wsError : WsEvent
  | other : WsEvent
deriving Repr

/-- The actions taken by `connect_and_stream`'s read loop over a sequence
of events: a text message is handled and the loop continues; `Close` or a
transport error breaks out of the loop; other message kinds are ignored. -/
def streamLoop : List WsEvent → List IngestAction
  | [] => []
  | .text j :: rest => handleText j :: streamLoop rest
  | .close :: _ => []
  | .wsError :: _ => []
  | .other :: rest => streamLoop rest

/-- Model of `connect_and_stream` threading the broadcast channel through the read
loop: a `publishFrame` action calls `broadcast_frame`; every other action
only logs.  Returns the final bus state and the trace of actions taken. -/
def runIngest (b : Bus) : List WsEvent → Bus × List IngestAction
  | [] => (b, [])
  | .text j :: rest =>
      let a := handleText j
      let b2 := match a with
        | .publishFrame f => (broadcastFrame b f).1
        | _ => b
      let r := runIngest b2 rest
      (r.1, a :: r.2)
  | .close :: _ => (b, [])
  | .wsError :: _ => (b, [])
  | .other :: rest => runIngest b rest

/-- The frames actually published onto the bus during a session. -/
def publishedFrames (b : Bus) (events : List WsEvent) : List ARScene :=
  ((runIngest b events).1).sent.drop b.sent.length

/-- Constant of `JetsonARClient::start`: the fixed reconnect back-off
(`sleep(Duration::from_secs(5))`). -/
def reconnectDelaySecs : Nat := 5

/-- One iteration of `JetsonARClient::start`'s loop: run a session to
completion (ok or error is only logged), then sleep the fixed delay before
the next connection attempt.  Returns the bus after the session, the
actions taken, and the delay slept before reconnecting. -/
def startIteration (b : Bus) (events : List WsEvent) :
    Bus × List IngestAction × Nat :=
  let r := runIngest b events
  (r.1, r.2, reconnectDelaySecs)

/-- One result of `rx.recv()` inside the `ar_stream` subscription of
`src/gateway/src/schema.rs`: a scene, or a receive error (channel closed,
or the receiver lagged behind the ring). -/
inductive RecvResult where
  | scene (s : ARScene) : RecvResult
  | closed : RecvResult
  | lagged (n : Nat) : RecvResult
deriving Repr

/-- The `async_stream` body of `Subscription::ar_stream`:
`while let Ok(scene) = rx.recv().await { yield scene }` — each received
scene is yielded as-is (no wrapper), and the stream ends at the first
receive error. -/
def arStreamYield : List RecvResult → List ARScene
  | .scene s :: rest => s :: arStreamYield rest
  | _ => []

/-- End-to-end delivery for a keeping-pace subscriber: frames decoded by
the ingest client are broadcast (as `sceneOfFrame`) and yielded by the
subscription stream. -/
def deliveredScenes (frames : List ARFrame) : List ARScene :=
  arStreamYield (frames.map (fun f => RecvResult.scene (sceneOfFrame f)))

end Gateway

namespace Bridge

/-! Types of `src/p1/src/ar/protocol.rs`.  `f32` fields are modelled as
`Float` (decoded from the integer-valued JSON numbers of the `Json` model
via `Float.ofInt`); `u16`/`u32`/`u64` as bounded `Nat`. -/

structure Vector3 where
  x : Float
  y : Float
  z : Float
deriving Repr

structure BoundingBox where
  x : Float
  y : Float
  width : Float
  height : Float
deriving Repr

structure DetectedObject where
  «class» : String
  confidence : Float
  bbox : BoundingBox
  position_3d : Option Vector3
  tracking_id : Option Nat
deriving Repr

inductive GestureType where
  | OpenPalm | ClosedFist | Pointing | ThumbsUp | ThumbsDown | Peace | Pinch
deriving Repr, DecidableEq

inductive TrackingSource where
  | JetsonMediaPipe | Quest3Native | Fused
deriving Repr, DecidableEq

/-- Fields `landmarks`/`confidences` are `[_; 21]` in the source; the decoder
enforces length 21. -/
structure HandPose where
  landmarks : List Vector3
  confidences : List Float
  gesture : Option GestureType
deriving Repr

structure HandTrackingData where
  left_hand : Option HandPose
  right_hand : Option HandPose
  confidence : Float
  source : TrackingSource
deriving Repr

inductive AudioSourceType where
  | Speech | Music | Alert | Environmental
deriving Repr, DecidableEq

structure AudioSource where
  id : String
  position : Vector3
  source_type : AudioSourceType
  volume : Float
deriving Repr

structure AudioContext where
  sources : List AudioSource
  listener_position : Vector3
  level_db : Float
deriving Repr

/-- Field `attributes: serde_json::Value` is an arbitrary `Json`. -/
structure DeviceState where
  id : String
  device_type : String
  state : String
  position : Vector3
  attributes : Json
deriving Repr

/-- Type `ARFrame` of `src/p1/src/ar/protocol.rs` (all fields required on this
side; `protocol_version` is a plain `u16`). -/
structure ARFrame where
  timestamp : Nat
  frame_id : Nat
  protocol_version : Nat
  objects : List DetectedObject
  hands : Option HandTrackingData
  audio_context : Option AudioContext
  device_states : Option (List DeviceState)
deriving Repr

/-- Model of `ARFrame::new_dummy`. -/
def ARFrame.new_dummy (timestamp : Nat) : ARFrame :=
  { timestamp := timestamp
    frame_id := 0
    protocol_version := 0x0100
    objects := []
    hands := none
    audio_context := none
    device_states := none }

/-- Model of `ARFrame::estimate_size`. -/
def ARFrame.estimate_size (f : ARFrame) : Nat :=
  16 + f.objects.length * 40 + (match f.hands with | some _ => 200 | none => 0)
    + (match f.audio_context with | some _ => 64 | none => 0)

inductive QualityPreset where
  | Low | Medium | High | Adaptive
deriving Repr, DecidableEq

structure ClientCapabilities where
  device_name : String
  supports_hand_tracking : Bool
  supports_spatial_audio : Bool
  max_fps : Nat
deriving Repr, DecidableEq

inductive StreamType where
  | ObjectDetection | HandTracking | SpatialAudio | SmartHome
deriving Repr, DecidableEq

inductive InteractionType where
  | Tap | Pinch | Grab
  | VoiceCommand (command : String)
deriving Repr, DecidableEq

/-- Type `ClientMessage` of `src/p1/src/ar/protocol.rs`. -/
inductive ClientMessage where
  | Connect (client_id : String) (protocol_version : Nat)
      (capabilities : ClientCapabilities)
  | Subscribe (streams : List StreamType)
  | ConfigureStream (target_fps : Nat) (quality : QualityPreset)
  | HandTrackingUpdate (hands : HandTrackingData)
  | InteractionEvent (event_type : InteractionType) (target : Option String)
  | Ping (timestamp : Nat)
deriving Repr

/-- Type `ServerMessage` of `src/p1/src/ar/protocol.rs` (the bridge side also
has an error `code` and a `Pong` variant). -/
inductive ServerMessage where
  | Connected (server_version : String) (session_id : String)
  | Frame (frame : ARFrame)
  | Error (code : Nat) (message : String)
  | Pong (client_timestamp : Nat) (server_timestamp : Nat)
deriving Repr

end Bridge

namespace Bridge

/-- serde_json decoding of a unit enum variant: either a plain string or a
one-entry object with a `null` content. -/
def unitVariantTag : Json → Option String
  | .str s => some s
  | .obj [(tag, .null)] => some tag
  | _ => none

def decodeFloat : Json → Option Float
  | .num n => some (Float.ofInt n)
  | _ => none

def decodeVector3 : Json → Option Vector3
  | .obj fields => do
      let x ← reqField decodeFloat fields "x"
      let y ← reqField decodeFloat fields "y"
      let z ← reqField decodeFloat fields "z"
      pure ⟨x, y, z⟩
  | _ => none

def decodeGestureType (j : Json) : Option GestureType := do
  match ← unitVariantTag j with
  | "OpenPalm" => some .OpenPalm
  | "ClosedFist" => some .ClosedFist
  | "Pointing" => some .Pointing
  | "ThumbsUp" => some .ThumbsUp
  | "ThumbsDown" => some .ThumbsDown
  | "Peace" => some .Peace
  | "Pinch" => some .Pinch
  | _ => none

def decodeTrackingSource (j : Json) : Option TrackingSource := do
  match ← unitVariantTag j with
  | "JetsonMediaPipe" => some .JetsonMediaPipe
  | "Quest3Native" => some .Quest3Native
  | "Fused" => some .Fused
  | _ => none

/-- Arrays `[T; 21]` decode from a sequence of exactly 21 elements. -/
def decodeArray21 {α : Type} (dec : Json → Option α) : Json → Option (List α)
  | .arr xs => if xs.length = 21 then xs.mapM dec else none
  | _ => none

def decodeHandPose : Json → Option HandPose
  | .obj fields => do
      let landmarks ← reqField (decodeArray21 decodeVector3) fields "landmarks"
      let confidences ← reqField (decodeArray21 decodeFloat) fields "confidences"
      let gesture ← optField decodeGestureType fields "gesture"
      pure ⟨landmarks, confidences, gesture⟩
  | _ => none

def decodeHandTrackingData : Json → Option HandTrackingData
  | .obj fields => do
      let lh ← optField decodeHandPose fields "left_hand"
      let rh ← optField decodeHandPose fields "right_hand"
      let c ← reqField decodeFloat fields "confidence"
      let s ← reqField decodeTrackingSource fields "source"
      pure ⟨lh, rh, c, s⟩
  | _ => none

def decodeQualityPreset (j : Json) : Option QualityPreset := do
  match ← unitVariantTag j with
  | "Low" => some .Low
  | "Medium" => some .Medium
  | "High" => some .High
  | "Adaptive" => some .Adaptive
  | _ => none

def decodeStreamType (j : Json) : Option StreamType := do
  match ← unitVariantTag j with
  | "ObjectDetection" => some .ObjectDetection
  | "HandTracking" => some .HandTracking
  | "SpatialAudio" => some .SpatialAudio
  | "SmartHome" => some .SmartHome
  | _ => none

def decodeStreamTypeList : Json → Option (List StreamType)
  | .arr xs => xs.mapM decodeStreamType
  | _ => none

/-- Enum `InteractionType` mixes unit variants and a struct variant. -/
def decodeInteractionType (j : Json) : Option InteractionType :=
  match j with
  | .obj [(tag, v)] =>
      if tag = "VoiceCommand" then
        match v with
        | .obj fields => do
            let c ← reqField decodeString fields "command"
            pure (.VoiceCommand c)
        | .null => none
        | _ => none
      else
        match unitVariantTag j with
        | some "Tap" => some .Tap
        | some "Pinch" => some .Pinch
        | some "Grab" => some .Grab
        | _ => none
  | _ =>
      match unitVariantTag j with
      | some "Tap" => some .Tap
      | some "Pinch" => some .Pinch
      | some "Grab" => some .Grab
      | _ => none

def decodeClientCapabilities : Json → Option ClientCapabilities
  | .obj fields => do
      let dn ← reqField decodeString fields "device_name"
      let ht ← reqField decodeBool fields "supports_hand_tracking"
      let sa ← reqField decodeBool fields "supports_spatial_audio"
      let mf ← reqField decodeU32 fields "max_fps"
      pure ⟨dn, ht, sa, mf⟩
  | _ => none

def decodeConnectPayload : Json → Option ClientMessage
  | .obj fields => do
      let cid ← reqField decodeString fields "client_id"
      let pv ← reqField decodeU16 fields "protocol_version"
      let caps ← reqField decodeClientCapabilities fields "capabilities"
      pure (.Connect cid pv caps)
  | _ => none

def decodeSubscribePayload : Json → Option ClientMessage
  | .obj fields => do
      let streams ← reqField decodeStreamTypeList fields "streams"
      pure (.Subscribe streams)
  | _ => none

def decodeConfigureStreamPayload : Json → Option ClientMessage
  | .obj fields => do
      let fps ← reqField decodeU32 fields "target_fps"
      let q ← reqField decodeQualityPreset fields "quality"
      pure (.ConfigureStream fps q)
  | _ => none

def decodeHandTrackingUpdatePayload : Json → Option ClientMessage
  | .obj fields => do
      let h ← reqField decodeHandTrackingData fields "hands"
      pure (.HandTrackingUpdate h)
  | _ => none

def decodeInteractionEventPayload : Json → Option ClientMessage
  | .obj fields => do
      let et ← reqField decodeInteractionType fields "event_type"
      let tgt ← optField decodeString fields "target"
      pure (.InteractionEvent et tgt)
  | _ => none

def decodePingPayload : Json → Option ClientMessage
  | .obj fields => do
      let ts ← reqField decodeU64 fields "timestamp"
      pure (.Ping ts)
  | _ => none

/-- serde-derived `Deserialize` for the externally tagged `ClientMessage`
enum (every variant carries fields, so only the one-entry-object form). -/
def decodeClientMessage : Json → Option ClientMessage
  | .obj [(tag, v)] =>
      if tag = "Connect" then decodeConnectPayload v
      else if tag = "Subscribe" then decodeSubscribePayload v
      else if tag = "ConfigureStream" then decodeConfigureStreamPayload v
      else if tag = "HandTrackingUpdate" then decodeHandTrackingUpdatePayload v
      else if tag = "InteractionEvent" then decodeInteractionEventPayload v
      else if tag = "Ping" then decodePingPayload v
      else none
  | _ => none

end Bridge

namespace Bridge

/-- Type `StreamConfig` of `src/p1/src/ar/bridge.rs`. -/
structure StreamConfig where
  target_fps : Nat
  quality : QualityPreset
  enable_compression : Bool
deriving Repr, DecidableEq

/-- Model of `impl Default for StreamConfig`. -/
def StreamConfig.default : StreamConfig :=
  { target_fps := 30, quality := .Medium, enable_compression := false }

/-- Type `ConnectedClient` of `src/p1/src/ar/bridge.rs`; the WebSocket stream
is an opaque transport handle here and `last_ping` an instant in
microseconds. -/
structure ConnectedClient where
  ws : Nat
  client_id : String
  capabilities : ClientCapabilities
  last_ping : Nat
deriving Repr, DecidableEq

/-- Type `ARBridgeServer` (the `Arc<Mutex<Vec<ConnectedClient>>>` registry is
its point-in-time contents). -/
structure ARBridgeServer where
  bind_addr : String
  clients : List ConnectedClient
  config : StreamConfig
deriving Repr, DecidableEq

/-- Model of `ARBridgeServer::new`. -/
def ARBridgeServer.new (bind_addr : String) : ARBridgeServer :=
  { bind_addr := bind_addr, clients := [], config := StreamConfig.default }

/-- Effect of one spawned `handle_client` call on the shared registry: the
parameter is bound as `_clients` and never read or written, so the registry
is returned unchanged. -/
def handleClientRegistryUpdate (clients : List ConnectedClient) :
    List ConnectedClient := clients

/-- The registry contents after the accept loop of `ARBridgeServer::run`
has spawned `n` `handle_client` tasks. -/
def runRegistry (s : ARBridgeServer) : Nat → List ConnectedClient
  | 0 => s.clients
  | n + 1 => handleClientRegistryUpdate (runRegistry s n)

/-- What `handle_client_message` does with one parsed client message
(logging only; `Ping` is accepted silently; other kinds fall to `_ => {}`). -/
inductive ClientMsgAction where
  | logConnect (client_id : String) (protocol_version : Nat)
      (device_name : String)
  | logConfigureStream (target_fps : Nat) (quality : QualityPreset)
  | acceptPingSilently
  | ignored
deriving Repr, DecidableEq

/-- Model of `ARBridgeServer::handle_client_message`. -/
def handleClientMessage : ClientMessage → ClientMsgAction
  | .Connect cid pv caps => .logConnect cid pv caps.device_name
  | .ConfigureStream fps q => .logConfigureStream fps q
  | .Ping _ => .acceptPingSilently
  | _ => .ignored

/-- One item produced by `read.next()` in `handle_client`'s receive loop:
`Ok(Text)`, `Ok(Close)`, another `Ok` message kind, or a transport `Err`. -/
inductive ClientEvent where
  | text (j : Json) : ClientEvent
  | close : ClientEvent
  | otherMsg : ClientEvent
  | readError : ClientEvent
deriving Repr

/-- Result `Ok`/`Err` of `handle_client` itself. -/
inductive HandleResult where
  | ok : HandleResult
  | err : HandleResult
deriving Repr, DecidableEq

/-- Outcome of running `handle_client`'s receive loop to completion. -/
structure LoopOutcome where
  /-- messages dispatched to `handle_client_message`, in order -/
  handled : List ClientMsgAction
  /-- whether `write_handle.abort()` was reached -/
  sendLoopAborted : Bool
  result : HandleResult
deriving Repr, DecidableEq

/-- Model of `handle_client`'s receive loop over a finite sequence of read results.
A text message is parsed as `ClientMessage`; on success it is dispatched,
on failure it is silently dropped — either way the loop continues.  `Close`
breaks out of the loop and reaches `write_handle.abort()`; exhaustion of
the stream (`read.next()` returning `None`) likewise falls through to the
abort.  A transport `Err`, however, propagates through the `?` operator:
`handle_client` returns early and the abort line is never executed. -/
def receiveLoop : List ClientEvent → LoopOutcome
  | [] => { handled := [], sendLoopAborted := true, result := .ok }
  | .text j :: rest =>
      let o := receiveLoop rest
      match decodeClientMessage j with
      | some m => { o with handled := handleClientMessage m :: o.handled }
      | none => o
  | .otherMsg :: rest => receiveLoop rest
  | .close :: _ => { handled := [], sendLoopAborted := true, result := .ok }
  | .readError :: _ => { handled := [], sendLoopAborted := false, result := .err }

/-- The `frame_id` counter of `stream_frames` before sending the `n`-th
frame: starts at `0`, `wrapping_add(1)` after every send. -/
def frameIdSeq : Nat → Nat
  | 0 => 0
  | n + 1 => (frameIdSeq n + 1) % 2 ^ 32

/-- The sequence of envelopes sent by `stream_frames` over `ticks` timer
ticks, given the per-tick wall-clock timestamps `tsf`: each tick sends
`ServerMessage::Frame` of a dummy frame whose `frame_id` is overwritten
with the running counter. -/
def streamFramesTrace (tsf : Nat → Nat) (ticks : Nat) : List ServerMessage :=
  (List.range ticks).map
    (fun i => .Frame { ARFrame.new_dummy (tsf i) with frame_id := frameIdSeq i })

/-- Everything `handle_client` sends on one accepted connection whose
welcome send succeeds and whose send loop runs for `ticks` ticks: the
`Connected` acknowledgement (server version `"1.0.0"`, fresh UUID session
id) synchronously first, then the spawned `stream_frames` task's frames. -/
def handleClientSentTrace (session_id : String) (tsf : Nat → Nat)
    (ticks : Nat) : List ServerMessage :=
  .Connected "1.0.0" session_id :: streamFramesTrace tsf ticks

/-- Tag tests on bridge envelopes. -/
def ServerMessage.isConnectedMsg : ServerMessage → Bool
  | .Connected _ _ => true
  | _ => false

def ServerMessage.isFrameMsg : ServerMessage → Bool
  | .Frame _ => true
  | _ => false

/-- The `frame_id` carried by a `Frame` envelope. -/
def ServerMessage.frameIdOf : ServerMessage → Option Nat
  | .Frame f => some f.frame_id
  | _ => none

/-- The `frame_id`s sent on a connection's send loop, in order. -/
def sentFrameIds (tsf : Nat → Nat) (ticks : Nat) : List Nat :=
  (streamFramesTrace tsf ticks).filterMap ServerMessage.frameIdOf

end Bridge

namespace Gateway

/-- JSON shape of a serialized `ServerMessage::Connected` envelope
(externally tagged, as produced by `serde_json::to_string` on the bridge). -/
def connectedEnvelope (sv sid : String) : Json :=
  .obj [("Connected", .obj [("server_version", .str sv),
                            ("session_id", .str sid)])]

/-- JSON shape of a serialized gateway-view `ServerMessage::Error`
envelope. -/
def errorEnvelope (m : String) : Json :=
  .obj [("Error", .obj [("message", .str m)])]

end Gateway

/-! Helper lemmas shared by the claim theorems. -/

/-- Closed form of the `wrapping_add(1)` frame counter of `stream_frames`. -/
theorem Bridge.frameIdSeq_mod (n : Nat) : Bridge.frameIdSeq n = n % 2 ^ 32 := by
  induction n with
  | zero => rfl
  | succ n ih => rw [Bridge.frameIdSeq, ih]; omega

/-- The actions taken by the ingest read loop do not depend on the bus state
threaded through `runIngest`: a `send` failure is swallowed inside
`broadcast_frame` and never reaches the loop. -/
theorem Gateway.runIngest_actions (b : Gateway.Bus)
    (events : List Gateway.WsEvent) :
    (Gateway.runIngest b events).2 = Gateway.streamLoop events := by
  induction events generalizing b with
  | nil => rfl
  | cons e rest ih =>
      cases e with
      | text j => simp [Gateway.runIngest, Gateway.streamLoop, ih]
      | close => rfl
      | wsError => rfl
      | other => simp [Gateway.runIngest, Gateway.streamLoop, ih]

/-- A keeping-pace subscriber of `ar_stream` receives exactly the
`sceneOfFrame` image of the ingested frames, in order. -/
theorem Gateway.deliveredScenes_map (frames : List Gateway.ARFrame) :
    Gateway.deliveredScenes frames = frames.map Gateway.sceneOfFrame := by
  induction frames with
  | nil => rfl
  | cons a l ih =>
      simp [Gateway.deliveredScenes, Gateway.arStreamYield] at ih ⊢
      exact ih

/-- The `frame_id`s sent by `stream_frames` are the counter values. -/
theorem Bridge.sentFrameIds_eq (tsf : Nat → Nat) (ticks : Nat) :
    Bridge.sentFrameIds tsf ticks = (List.range ticks).map Bridge.frameIdSeq := by
  have key : ∀ l : List Nat,
      List.filterMap (Bridge.ServerMessage.frameIdOf ∘ fun i =>
        Bridge.ServerMessage.Frame
          { Bridge.ARFrame.new_dummy (tsf i) with
              frame_id := Bridge.frameIdSeq i }) l =
      l.map Bridge.frameIdSeq := by
    intro l
    induction l with
    | nil => rfl
    | cons a l ih =>
        simp [List.filterMap_cons, ih, Function.comp,
              Bridge.ServerMessage.frameIdOf]
  rw [Bridge.sentFrameIds, Bridge.streamFramesTrace, List.filterMap_map, key]

/-- Unfolding `handleText` when the envelope decode succeeds. -/
theorem Gateway.handleText_envelope (j : Json) (m : Gateway.ServerMessage)
    (hm : Gateway.decodeServerMessage j = some m) :
    Gateway.handleText j = Gateway.envelopeAction m := by
  simp [Gateway.handleText, hm]

/-- Unfolding `handleText` on the bare-frame fallback. -/
theorem Gateway.handleText_bare (j : Json) (f : Gateway.ARFrame)
    (hn : Gateway.decodeServerMessage j = none)
    (hf : Gateway.decodeARFrame j = some f) :
    Gateway.handleText j = Gateway.IngestAction.publishFrame f := by
  simp [Gateway.handleText, hn, hf]

/-- Unfolding `handleText` when both decodes fail. -/
theorem Gateway.handleText_parse_failure (j : Json)
    (hn : Gateway.decodeServerMessage j = none)
    (hf : Gateway.decodeARFrame j = none) :
    Gateway.handleText j = Gateway.IngestAction.logParseFailure := by
  simp [Gateway.handleText, hn, hf]

/-! Claim theorems. -/

/-- C1 counterexample: two ingested frames that differ in their `objects`
and `hands` payloads are delivered as identical values on the subscription
stream — the frame content beyond `timestamp` and `frame_id` is dropped
between ingest and delivery, refuting the claim that the delivered value
carries the full Frame content. -/
theorem Gateway.subscription_drops_content_counterexample :
    (⟨1, 1, none, ["cup"], some "hands", none, none⟩ : Gateway.ARFrame) ≠
      (⟨1, 1, none, [], none, none, none⟩ : Gateway.ARFrame) ∧
    Gateway.deliveredScenes [⟨1, 1, none, ["cup"], some "hands", none, none⟩] =
      Gateway.deliveredScenes [⟨1, 1, none, [], none, none, none⟩] := by
  decide

/-- C1 (corrected): the Subscription Gateway forwards the bus's `ARScene`
value directly to subscription clients, one delivered value per ingested
frame with no custom envelope — but the delivered value carries only the
frame's `timestamp` and `frame_id`; objects, hand-tracking data, audio
context and device states are dropped by `broadcast_frame` before
publication. -/
theorem Gateway.subscription_forwards_scene_directly
    (frames : List Gateway.ARFrame) (f : Gateway.ARFrame) :
    Gateway.deliveredScenes frames = frames.map Gateway.sceneOfFrame ∧
    Gateway.sceneOfFrame f =
      { timestamp := f.timestamp, frame_id := f.frame_id } :=
  ⟨Gateway.deliveredScenes_map frames, rfl⟩

/-- C2 (code bug): `handle_client`'s receive loop reaches
`write_handle.abort()` when the client sends `Close` or when the read
stream ends, but a transport read error propagates through the `?`
operator and returns from `handle_client` before the abort line — the
in-flight send loop is not cancelled on transport error, contradicting the
requirement that it be cancelled on transport close or transport error. -/
theorem Bridge.receive_loop_error_skips_abort :
    (Bridge.receiveLoop [Bridge.ClientEvent.readError]).sendLoopAborted = false ∧
    (Bridge.receiveLoop [Bridge.ClientEvent.readError]).result =
      Bridge.HandleResult.err ∧
    (Bridge.receiveLoop [Bridge.ClientEvent.close]).sendLoopAborted = true ∧
    (Bridge.receiveLoop []).sendLoopAborted = true := by
  decide

/-- C3: wrapper-format transparency on the ingest path — if a payload
decodes as a bare `ARFrame`, then the same payload wrapped in a
`Frame`-tagged envelope decodes to the identical frame value, both shapes
are handled as a publish of that same frame, and both paths put the same
scene onto the broadcast bus. -/
theorem Gateway.wrapper_format_transparency (j : Json) (f : Gateway.ARFrame)
    (h : Gateway.decodeARFrame j = some f) :
    Gateway.decodeServerMessage (Json.obj [("Frame", j)]) =
      some (Gateway.ServerMessage.Frame f) ∧
    Gateway.handleText (Json.obj [("Frame", j)]) =
      Gateway.IngestAction.publishFrame f ∧
    (Gateway.decodeServerMessage j = none →
      Gateway.handleText j = Gateway.IngestAction.publishFrame f) ∧
    ∀ b : Gateway.Bus,
      (Gateway.runIngest b [Gateway.WsEvent.text (Json.obj [("Frame", j)])]).1 =
        (Gateway.broadcastFrame b f).1 ∧
      (Gateway.decodeServerMessage j = none →
        (Gateway.runIngest b [Gateway.WsEvent.text j]).1 =
          (Gateway.broadcastFrame b f).1) := by
  have henv : Gateway.decodeServerMessage (Json.obj [("Frame", j)]) =
      some (Gateway.ServerMessage.Frame f) := by
    simp [Gateway.decodeServerMessage, h]
  have hact : Gateway.handleText (Json.obj [("Frame", j)]) =
      Gateway.IngestAction.publishFrame f := by
    simp [Gateway.handleText, henv, Gateway.envelopeAction]
  refine ⟨henv, hact, ?_, ?_⟩
  · intro hn
    simp [Gateway.handleText, hn, h]
  · intro b
    constructor
    · simp [Gateway.runIngest, hact]
    · intro hn
      have hbare : Gateway.handleText j = Gateway.IngestAction.publishFrame f := by
        simp [Gateway.handleText, hn, h]
      simp [Gateway.runIngest, hbare]

/-- C3 witness at a concrete payload. -/
theorem Gateway.wrapper_format_transparency_witness :
    Gateway.decodeARFrame
        (Json.obj [("timestamp", Json.num 1), ("frame_id", Json.num 2)]) =
      some ⟨1, 2, none, [], none, none, none⟩ ∧
    Gateway.decodeServerMessage
        (Json.obj [("Frame",
          Json.obj [("timestamp", Json.num 1), ("frame_id", Json.num 2)])]) =
      some (Gateway.ServerMessage.Frame ⟨1, 2, none, [], none, none, none⟩) :=
  ⟨by decide,
   (Gateway.wrapper_format_transparency
      (Json.obj [("timestamp", Json.num 1), ("frame_id", Json.num 2)])
      ⟨1, 2, none, [], none, none, none⟩ (by decide)).1⟩

/-- C4: the ingest decoder attempts the fully tagged envelope first and
falls back to the bare frame shape; a message failing both decodes is
logged and discarded while the read loop continues; on the downstream side
a client message that fails to parse is dropped and the read loop
continues — a single decode failure never terminates either loop. -/
theorem Gateway.decode_order_and_failure_isolation (j : Json)
    (rest : List Gateway.WsEvent) (krest : List Bridge.ClientEvent) :
    (∀ m, Gateway.decodeServerMessage j = some m →
       Gateway.handleText j = Gateway.envelopeAction m) ∧
    (∀ f, Gateway.decodeServerMessage j = none →
       Gateway.decodeARFrame j = some f →
       Gateway.handleText j = Gateway.IngestAction.publishFrame f) ∧
    (Gateway.decodeServerMessage j = none → Gateway.decodeARFrame j = none →
       Gateway.handleText j = Gateway.IngestAction.logParseFailure) ∧
    Gateway.streamLoop (Gateway.WsEvent.text j :: rest) =
      Gateway.handleText j :: Gateway.streamLoop rest ∧
    (Bridge.decodeClientMessage j = none →
       Bridge.receiveLoop (Bridge.ClientEvent.text j :: krest) =
         Bridge.receiveLoop krest) := by
  refine ⟨?_, ?_, ?_, rfl, ?_⟩
  · intro m hm
    simp [Gateway.handleText, hm]
  · intro f hn hf
    simp [Gateway.handleText, hn, hf]
  · intro hn hf
    simp [Gateway.handleText, hn, hf]
  · intro hc
    simp [Bridge.receiveLoop, hc]

/-- C4 witness at a message that fails every decode. -/
theorem Gateway.decode_order_and_failure_isolation_witness :
    Gateway.handleText (Json.str "not a protocol message") =
      Gateway.IngestAction.logParseFailure ∧
    Bridge.receiveLoop
        [Bridge.ClientEvent.text (Json.str "not a protocol message")] =
      Bridge.receiveLoop [] :=
  ⟨(Gateway.decode_order_and_failure_isolation
      (Json.str "not a protocol message") [] []).2.2.1 (by decide) (by decide),
   (Gateway.decode_order_and_failure_isolation
      (Json.str "not a protocol message") [] []).2.2.2.2 rfl⟩

/-- C5: `broadcast_frame` on a bus with zero subscribers returns normally
(the send error is swallowed and only a warning is logged), and the ingest
read loop's behaviour is independent of the bus state — absence of
consumers never terminates the streaming loop. -/
theorem Gateway.publish_zero_subscribers_returns_normally
    (b : Gateway.Bus) (f : Gateway.ARFrame) (h : b.receiverCount = 0) :
    Gateway.broadcastFrame b f = (b, true) ∧
    ∀ events, (Gateway.runIngest b events).2 = Gateway.streamLoop events := by
  constructor
  · simp [Gateway.broadcastFrame, Gateway.Bus.send, h]
  · intro events
    exact Gateway.runIngest_actions b events

/-- C5 witness on a concrete zero-subscriber bus. -/
theorem Gateway.publish_zero_subscribers_returns_normally_witness :
    Gateway.broadcastFrame ⟨0, []⟩ ⟨1, 2, none, [], none, none, none⟩ =
      (⟨0, []⟩, true) ∧
    (Gateway.runIngest ⟨0, []⟩ [Gateway.WsEvent.close]).2 =
      Gateway.streamLoop [Gateway.WsEvent.close] :=
  ⟨(Gateway.publish_zero_subscribers_returns_normally ⟨0, []⟩
      ⟨1, 2, none, [], none, none, none⟩ rfl).1,
   (Gateway.publish_zero_subscribers_returns_normally ⟨0, []⟩
      ⟨1, 2, none, [], none, none, none⟩ rfl).2 [Gateway.WsEvent.close]⟩

/-- C6: a session in which the producer sends one connection
acknowledgement and then closes publishes no frame onto the bus (the
acknowledgement is logged, an error envelope likewise only logged, neither
republished), and the client then sleeps the fixed 5-second back-off
before the next connection attempt. -/
theorem Gateway.ack_then_close_session_no_publish (sv sid m : String)
    (b : Gateway.Bus) :
    Gateway.handleText (Gateway.connectedEnvelope sv sid) =
      Gateway.IngestAction.logConnected sv sid ∧
    Gateway.handleText (Gateway.errorEnvelope m) =
      Gateway.IngestAction.logErrorMsg m ∧
    Gateway.startIteration b
        [Gateway.WsEvent.text (Gateway.connectedEnvelope sv sid),
         Gateway.WsEvent.close] =
      (b, [Gateway.IngestAction.logConnected sv sid],
       Gateway.reconnectDelaySecs) ∧
    Gateway.publishedFrames b
        [Gateway.WsEvent.text (Gateway.connectedEnvelope sv sid),
         Gateway.WsEvent.close] = [] ∧
    Gateway.reconnectDelaySecs = 5 := by
  refine ⟨rfl, rfl, rfl, ?_, rfl⟩
  have h : (Gateway.runIngest b
      [Gateway.WsEvent.text (Gateway.connectedEnvelope sv sid),
       Gateway.WsEvent.close]).1 = b := rfl
  simp [Gateway.publishedFrames, h]

/-- C7: on every accepted connection the sent trace starts with exactly one
`Connected` acknowledgement, and everything the spawned send loop
subsequently sends is a `Frame` envelope — so the acknowledgement precedes
every frame. -/
theorem Bridge.exactly_one_ack_before_frames (sid : String)
    (tsf : Nat → Nat) (ticks : Nat) :
    (Bridge.handleClientSentTrace sid tsf ticks).head? =
      some (Bridge.ServerMessage.Connected "1.0.0" sid) ∧
    (Bridge.handleClientSentTrace sid tsf ticks).countP
      (fun m => m.isConnectedMsg) = 1 ∧
    ∀ m ∈ Bridge.streamFramesTrace tsf ticks,
      Bridge.ServerMessage.isFrameMsg m = true := by
  refine ⟨rfl, ?_, ?_⟩
  · rw [Bridge.handleClientSentTrace, List.countP_cons]
    have hz : (Bridge.streamFramesTrace tsf ticks).countP
        (fun m => m.isConnectedMsg) = 0 := by
      apply List.countP_eq_zero.mpr
      intro m hm
      rw [Bridge.streamFramesTrace] at hm
      obtain ⟨i, _, rfl⟩ := List.mem_map.mp hm
      simp [Bridge.ServerMessage.isConnectedMsg]
    rw [hz]
    simp [Bridge.ServerMessage.isConnectedMsg]
  · intro m hm
    rw [Bridge.streamFramesTrace] at hm
    obtain ⟨i, _, rfl⟩ := List.mem_map.mp hm
    rfl

/-- C7 witness on a one-tick connection. -/
theorem Bridge.exactly_one_ack_before_frames_witness :
    (Bridge.handleClientSentTrace "s" (fun _ => 0) 1).head? =
      some (Bridge.ServerMessage.Connected "1.0.0" "s") ∧
    Bridge.ServerMessage.isFrameMsg
      (Bridge.ServerMessage.Frame
        { Bridge.ARFrame.new_dummy 0 with frame_id := Bridge.frameIdSeq 0 }) =
      true :=
  ⟨(Bridge.exactly_one_ack_before_frames "s" (fun _ => 0) 1).1,
   (Bridge.exactly_one_ack_before_frames "s" (fun _ => 0) 1).2.2 _
     (by simp [Bridge.streamFramesTrace])⟩

/-- C8: the send loop's frame counter is the tick index modulo 2^32, so
successive frames carry `frame_id`s that increase by exactly 1 modulo
2^32; the frame after `frame_id = u32::MAX` carries `frame_id = 0`, and
`wrapping_add` makes the step total (no overflow error is possible). -/
theorem Bridge.frame_id_wraparound (tsf : Nat → Nat) (ticks n i : Nat)
    (h : i < ticks) :
    Bridge.frameIdSeq n = n % 2 ^ 32 ∧
    Bridge.frameIdSeq (n + 1) = (Bridge.frameIdSeq n + 1) % 2 ^ 32 ∧
    Bridge.frameIdSeq (2 ^ 32 - 1) = 2 ^ 32 - 1 ∧
    Bridge.frameIdSeq (2 ^ 32) = 0 ∧
    (Bridge.sentFrameIds tsf ticks)[i]? = some (i % 2 ^ 32) := by
  refine ⟨Bridge.frameIdSeq_mod n, rfl, ?_, ?_, ?_⟩
  · rw [Bridge.frameIdSeq_mod]
    exact Nat.mod_eq_of_lt (by norm_num)
  · rw [Bridge.frameIdSeq_mod, Nat.mod_self]
  · rw [Bridge.sentFrameIds_eq, List.getElem?_map, List.getElem?_range h]
    simp [Bridge.frameIdSeq_mod]

/-- C8 witness: the first tick of a one-tick send loop. -/
theorem Bridge.frame_id_wraparound_witness :
    (Bridge.sentFrameIds (fun _ => 0) 1)[0]? = some (0 % 2 ^ 32) :=
  (Bridge.frame_id_wraparound (fun _ => 0) 1 0 0 (by decide)).2.2.2.2

/-- C9: an ingest message carrying only `timestamp` and `frame_id` decodes
successfully to a frame with every optional sub-payload absent (empty
object list, no hands, no audio context, no device states, no protocol
version), and the read loop publishes exactly that frame. -/
theorem Gateway.missing_optional_fields_decode_to_absent (t i : Nat)
    (ht : t < 2 ^ 64) (hi : i < 2 ^ 32) :
    Gateway.decodeARFrame
        (Json.obj [("timestamp", Json.num t), ("frame_id", Json.num i)]) =
      some ⟨t, i, none, [], none, none, none⟩ ∧
    Gateway.handleText
        (Json.obj [("timestamp", Json.num t), ("frame_id", Json.num i)]) =
      Gateway.IngestAction.publishFrame ⟨t, i, none, [], none, none, none⟩ := by
  have h1 : (0 ≤ (t : Int) ∧ (t : Int) < ((2 ^ 64 : Nat) : Int)) :=
    ⟨Int.ofNat_nonneg t, by exact_mod_cast ht⟩
  have h2 : (0 ≤ (i : Int) ∧ (i : Int) < ((2 ^ 32 : Nat) : Int)) :=
    ⟨Int.ofNat_nonneg i, by exact_mod_cast hi⟩
  have ht18 : t < 18446744073709551616 := by norm_num at ht; exact ht
  have hi18 : i < 4294967296 := by norm_num at hi; exact hi
  have hdec : Gateway.decodeARFrame
      (Json.obj [("timestamp", Json.num t), ("frame_id", Json.num i)]) =
      some ⟨t, i, none, [], none, none, none⟩ := by
    simp [Gateway.decodeARFrame, reqField, optField, dfltField, getField,
          decodeU64, decodeU32, decodeUIntLt, h1, h2, List.lookup, ht18, hi18]
  have hnone : Gateway.decodeServerMessage
      (Json.obj [("timestamp", Json.num t), ("frame_id", Json.num i)]) =
      none := rfl
  exact ⟨hdec, Gateway.handleText_bare _ _ hnone hdec⟩

/-- C9 witness at a concrete heartbeat-equivalent message. -/
theorem Gateway.missing_optional_fields_decode_to_absent_witness :
    Gateway.decodeARFrame
        (Json.obj [("timestamp", Json.num 123), ("frame_id", Json.num 7)]) =
      some ⟨123, 7, none, [], none, none, none⟩ :=
  (Gateway.missing_optional_fields_decode_to_absent 123 7
    (by norm_num) (by norm_num)).1

/-- C10: the shared client registry starts empty in `ARBridgeServer::new`
and no code path inserts or removes a `ConnectedClient` (`handle_client`
binds it as `_clients` and leaves it untouched), so after any number of
accepted connections the registry is still the empty list and the
connected-client count is zero. -/
theorem Bridge.registry_never_mutated (addr : String) (n : Nat) :
    (Bridge.ARBridgeServer.new addr).clients = [] ∧
    Bridge.runRegistry (Bridge.ARBridgeServer.new addr) n = [] ∧
    (Bridge.runRegistry (Bridge.ARBridgeServer.new addr) n).length = 0 ∧
    ∀ cs, Bridge.handleClientRegistryUpdate cs = cs := by
  have hrun : Bridge.runRegistry (Bridge.ARBridgeServer.new addr) n = [] := by
    induction n with
    | zero => rfl
    | succ n ih =>
        simpa [Bridge.runRegistry, Bridge.handleClientRegistryUpdate] using ih
  exact ⟨rfl, hrun, by rw [hrun]; rfl, fun cs => rfl⟩
